import Mathlib

/-!
Verification of the OTP phone-number authentication core.

This file is a shallow embedding, in Lean 4, of the logic-bearing code of the
repository: the OTP store (`internal/repository/otp_repository.go`), the user
store (`internal/repository/user_repository.go`), the data model
(`internal/models/otp.go`, `internal/models/user.go`,
`internal/models/auth.go`) and the auth orchestrator
(`internal/services/auth_service.go`).

Modelling conventions:
- Timestamps and durations are `Int` values (an abstract clock); `time.Now()`
  becomes an explicit parameter at each point the Go code reads the clock.
- The `otps` SQL table becomes a `List OTP` in insertion order (rows created
  later appear later in the list); each SQL statement becomes a pure function
  on that list with the statement's WHERE/SET semantics.
- `crypto/rand` becomes an explicit finite entropy stream `List (Fin 10)`:
  the successive results of `rand.Int(rand.Reader, 10)`, which by that
  function's contract lie in `[0, 10)`; an exhausted stream models an
  entropy-source failure.
- The HMAC primitive of the JWT library is an explicit function parameter
  `mac`; tokens are kept in parsed form (algorithm, claims, signature), which
  is the form `jwt.ParseWithClaims` hands to the checks the claims are about.
- Fallible store/sign calls are driven by an explicit fault profile so that
  the error-propagation paths of `VerifyOTP` are reachable in the model.
-/

/-- A row of the `otps` table (struct `OTP` in `internal/models/otp.go`).
The SQL `id SERIAL` column is never read by the core and is omitted. -/
structure OTP where
  phoneNumber : String
  code : String
  expiresAt : Int
  createdAt : Int
  used : Bool
deriving DecidableEq, Repr

/-- A row of the `users` table (struct `User` in `internal/models/user.go`). -/
structure User where
  id : String
  phoneNumber : String
  createdAt : Int
  updatedAt : Int
  lastLoginAt : Option Int
deriving DecidableEq, Repr

/-- Public projection of a user (struct `UserResponse`). -/
structure UserResponse where
  id : String
  phoneNumber : String
  createdAt : Int
  lastLoginAt : Option Int
deriving DecidableEq, Repr

/-- JWT claims (struct `Claims` in `internal/models/auth.go`). -/
structure Claims where
  userID : String
  phoneNumber : String
  exp : Int
deriving DecidableEq, Repr

/-- The configuration values the auth service reads
(`config.Config`: OTP length and lifetime, rate-limit window and cap,
JWT secret and lifetime). Durations are in the same abstract time unit as
timestamps; `expiryMinutes` is kept in minutes as in the Go code, with
`minuteUnit` the length of one minute in time units. -/
structure Config where
  otpLength : Nat
  expiryMinutes : Int
  minuteUnit : Int
  rateLimitWindow : Int
  maxRequests : Nat
  jwtSecret : String
  jwtExpiry : Int
deriving Repr

/-- Constructor `NewOTP` (`internal/models/otp.go`): expiry is
`now + expiryMinutes minutes`, creation time `now`, not yet used. -/
def NewOTP (phoneNumber code : String) (expiryMinutes minuteUnit now : Int) : OTP :=
  { phoneNumber := phoneNumber
  , code := code
  , expiresAt := now + expiryMinutes * minuteUnit
  , createdAt := now
  , used := false }

/-- Method `OTP.IsExpired` (`internal/models/otp.go`):
`time.Now().After(o.ExpiresAt)`, i.e. strictly after expiry. -/
def OTP.IsExpired (o : OTP) (now : Int) : Bool :=
  decide (o.expiresAt < now)

/-- Method `OTP.IsValid` (`internal/models/otp.go`): not used and not expired. -/
def OTP.IsValid (o : OTP) (now : Int) : Bool :=
  !o.used && !(o.IsExpired now)

/-- Constructor `NewUser` (`internal/models/user.go`): fresh uuid (here an
explicit parameter), both timestamps set to now, no last login yet. -/
def NewUser (phoneNumber uuid : String) (now : Int) : User :=
  { id := uuid
  , phoneNumber := phoneNumber
  , createdAt := now
  , updatedAt := now
  , lastLoginAt := none }

/-- Method `User.UpdateLastLogin` (`internal/models/user.go`). -/
def User.UpdateLastLogin (u : User) (now : Int) : User :=
  { u with lastLoginAt := some now, updatedAt := now }

/-- Method `User.ToResponse` (`internal/models/user.go`). -/
def User.ToResponse (u : User) : UserResponse :=
  { id := u.id
  , phoneNumber := u.phoneNumber
  , createdAt := u.createdAt
  , lastLoginAt := u.lastLoginAt }

namespace OTPRepo

/-- Row filter of `GetByPhoneNumber`
(`WHERE phone_number = $1 AND used = false AND expires_at > NOW()`). -/
def qualifies (phoneNumber : String) (now : Int) (o : OTP) : Bool :=
  o.phoneNumber == phoneNumber && !o.used && decide (now < o.expiresAt)

/-- The `ORDER BY created_at DESC LIMIT 1` step: pick the row with the
greatest creation time. The SQL leaves the order of equal `created_at`
values unspecified; the model resolves a tie to the row inserted latest
(the later list element), matching the documented "newest wins" intent. -/
def pickLatest : List OTP → Option OTP
  | [] => none
  | o :: rest =>
    match pickLatest rest with
    | none => some o
    | some b => if o.createdAt ≤ b.createdAt then some b else some o

/-- `otpRepository.GetByPhoneNumber` (`internal/repository/otp_repository.go`):
newest unconsumed, unexpired row for the phone number; `sql.ErrNoRows` is
mapped to `nil, nil`, i.e. `none`, not an error. -/
def getByPhoneNumber (store : List OTP) (phoneNumber : String) (now : Int) : Option OTP :=
  pickLatest (store.filter (qualifies phoneNumber now))

/-- `otpRepository.Create`: `INSERT INTO otps ...` appends one row. -/
def create (store : List OTP) (o : OTP) : List OTP :=
  store ++ [o]

/-- `otpRepository.MarkAsUsed`
(`UPDATE otps SET used = true WHERE phone_number = $1 AND used = false`). -/
def markAsUsed (store : List OTP) (phoneNumber : String) : List OTP :=
  store.map (fun o =>
    if o.phoneNumber == phoneNumber && !o.used then { o with used := true } else o)

/-- `otpRepository.GetRecentOTPCount`
(`SELECT COUNT(*) FROM otps WHERE phone_number = $1 AND created_at >= $2`). -/
def getRecentOTPCount (store : List OTP) (phoneNumber : String) (since : Int) : Nat :=
  (store.filter (fun o => o.phoneNumber == phoneNumber && decide (since ≤ o.createdAt))).length

/-- `otpRepository.DeleteExpired` (`DELETE FROM otps WHERE expires_at < NOW()`). -/
def deleteExpired (store : List OTP) (now : Int) : List OTP :=
  store.filter (fun o => !decide (o.expiresAt < now))

end OTPRepo

namespace UserRepo

/-- `userRepository.GetByPhoneNumber` (`internal/repository/user_repository.go`):
`SELECT id, phone_number, created_at, updated_at, last_login_at FROM users
WHERE phone_number = $1`, scanned with `QueryRowContext` (the first returned
row; the query has no ORDER BY, the model resolves the engine's unspecified
order to the first stored row — the schema's UNIQUE phone_number makes at
most one exist); `sql.ErrNoRows` is mapped to `nil, nil`, i.e. `none`. -/
def getByPhoneNumber (users : List User) (phoneNumber : String) : Option User :=
  users.find? (fun u => u.phoneNumber == phoneNumber)

/-- `userRepository.Create` (`internal/repository/user_repository.go`):
`INSERT INTO users (id, phone_number, created_at, updated_at, last_login_at)`
appends one row with all five fields of the argument. -/
def create (users : List User) (u : User) : List User :=
  users ++ [u]

/-- `userRepository.Update` (`internal/repository/user_repository.go`):
`UPDATE users SET phone_number = $2, updated_at = $3, last_login_at = $4
WHERE id = $1` — rows with the argument's id get its phone number, update
stamp and last-login stamp; `id` and `created_at` are never written. -/
def update (users : List User) (u : User) : List User :=
  users.map (fun v =>
    if v.id == u.id then
      { v with
          phoneNumber := u.phoneNumber,
          updatedAt := u.updatedAt,
          lastLoginAt := u.lastLoginAt }
    else v)

end UserRepo

/-- The decimal digit character for a draw of `rand.Int(rand.Reader, 10)`:
`"0123456789"[d]` in `generateRandomCode`. -/
def digitChar (d : Fin 10) : Char :=
  "0123456789".toList.getD d.val '0'

/-- `authService.generateRandomCode` (`internal/services/auth_service.go`):
one `rand.Int(rand.Reader, 10)` draw per character; the first entropy-source
failure (here: exhaustion of the stream) aborts with an error and the loop is
otherwise total. Returns the code together with the unconsumed remainder of
the stream. The function is pure: it has no side effects on any store. -/
def generateRandomCode (entropy : List (Fin 10)) : Nat → Option (String × List (Fin 10))
  | 0 => some ("", entropy)
  | n + 1 =>
    match entropy with
    | [] => none
    | d :: rest =>
      match generateRandomCode rest n with
      | none => none
      | some (s, left) => some (String.mk (digitChar d :: s.toList), left)

/-- Signing algorithms as `jwt/v5` signing-method values. `AlgNone` stands for
the unsecured "none" method, `RS256` for any non-HMAC asymmetric method. -/
inductive SigAlg
  | HS256
  | HS384
  | HS512
  | RS256
  | AlgNone
deriving DecidableEq, Repr

/-- The type assertion `token.Method.(*jwt.SigningMethodHMAC)` in
`ValidateToken`'s key function: true exactly for the HMAC family. -/
def SigAlg.isHMAC : SigAlg → Bool
  | .HS256 => true
  | .HS384 => true
  | .HS512 => true
  | _ => false

/-- A JWS token in parsed form: the `alg` header value, the claims carried by
the payload, and the signature part. `jwt.ParseWithClaims` parses the
serialized token into exactly these three components before any check runs;
a byte-level alteration of a serialized token that still parses is an
alteration of one of these components. -/
structure Token where
  alg : SigAlg
  claims : Claims
  sig : String
deriving DecidableEq, Repr

/-- The HMAC primitive of the JWT library, as a function of the algorithm,
the symmetric key, and the signed content. The claims serialization of
`jwt/v5` is injective (a JSON object of the three fields), so the model lets
the MAC read the parsed claims directly. -/
def MacFn : Type := SigAlg → String → Claims → String

/-- `authService.generateJWT` (`internal/services/auth_service.go`): claims
{user id, phone number, expiry = now + configured lifetime}, signed with
HS256 under the configured secret; returns the token and the expiry instant. -/
def generateJWT (mac : MacFn) (secret : String) (jwtExpiry now : Int) (u : User) :
    Token × Int :=
  let expiresAt := now + jwtExpiry
  let claims : Claims :=
    { userID := u.id, phoneNumber := u.phoneNumber, exp := expiresAt }
  ({ alg := .HS256, claims := claims, sig := mac .HS256 secret claims }, expiresAt)

/-- `authService.ValidateToken` (`internal/services/auth_service.go`) on a
token that parsed: the key function rejects any non-HMAC signing method, the
library then verifies the signature under the returned key and validates the
claims — `Claims.GetExpirationTime` is `exp` (`internal/models/auth.go`), so
the token is expired unless `now < exp`. Every failure collapses to one
"invalid token" error, modelled as `none`. -/
def ValidateToken (mac : MacFn) (secret : String) (now : Int) (t : Token) :
    Option Claims :=
  if !t.alg.isHMAC then none
  else if t.sig ≠ mac t.alg secret t.claims then none
  else if t.claims.exp ≤ now then none
  else some t.claims

/-- Response of `GenerateOTP` (struct `OTPResponse`). -/
structure OTPResponse where
  message : String
  expiresIn : Int
deriving DecidableEq, Repr

/-- Response of `VerifyOTP` (struct `AuthResponse`). -/
structure AuthResponse where
  token : Token
  user : UserResponse
  expiresAt : Int
deriving DecidableEq, Repr

/-- The distinct failures `GenerateOTP` can return: the rate-limit rejection
("rate limit exceeded. Please try again later"), a code-generation failure
("failed to generate OTP"), and a store failure (wrapped repository error). -/
inductive GenError
  | RateLimited
  | EntropyFailure
  | Internal
deriving DecidableEq, Repr

/-- The distinct failures `VerifyOTP` can return, by error message:
"invalid or expired OTP", "invalid OTP code", "OTP has expired", and the
wrapped store/sign failures ("failed to ..."). -/
inductive VerifyError
  | NoActiveChallenge
  | CodeMismatch
  | ChallengeExpired
  | Internal
deriving DecidableEq, Repr

/-- Which fallible external calls of `VerifyOTP` fail, modelling transport or
storage errors of the repositories and of `SignedString`. A flag applies to
the call if and when `VerifyOTP` reaches it. -/
structure Faults where
  fetchOTP : Bool
  markUsed : Bool
  getUser : Bool
  createUser : Bool
  updateUser : Bool
  mint : Bool
deriving DecidableEq, Repr

/-- The fault-free profile: every external call succeeds. -/
def Faults.none_ : Faults :=
  { fetchOTP := false, markUsed := false, getUser := false
  , createUser := false, updateUser := false, mint := false }

/-- The persistent state the auth service acts on: the `otps` and `users`
tables. -/
structure AppState where
  otps : List OTP
  users : List User
deriving DecidableEq, Repr

/-- `authService.GenerateOTP` (`internal/services/auth_service.go`): count
the phone number's rows created at or after `now - rateLimitWindow`; at or
above `maxRequests`, stop with the rate-limit error before generating any
code; otherwise draw a fresh code, insert the new OTP row and acknowledge.
Returns the result together with the resulting table and the unconsumed
entropy. On any failure the table is unchanged; on the rate-limit failure
the entropy is also untouched (no code is generated). -/
def GenerateOTP (cfg : Config) (entropy : List (Fin 10)) (now : Int)
    (store : List OTP) (phoneNumber : String) :
    Except GenError OTPResponse × List OTP × List (Fin 10) :=
  let since := now - cfg.rateLimitWindow
  let count := OTPRepo.getRecentOTPCount store phoneNumber since
  if cfg.maxRequests ≤ count then
    (.error .RateLimited, store, entropy)
  else
    match generateRandomCode entropy cfg.otpLength with
    | none => (.error .EntropyFailure, store, entropy)
    | some (code, entropyLeft) =>
      let otp := NewOTP phoneNumber code cfg.expiryMinutes cfg.minuteUnit now
      (.ok { message := "OTP sent successfully", expiresIn := cfg.expiryMinutes }
      , OTPRepo.create store otp, entropyLeft)

/-- Steps 5-8 of `authService.VerifyOTP`: look the user up, create it when
absent, stamp the last login, persist, mint the session token. `uuid` is the
fresh id `uuid.New().String()` would produce; `tUser` is the clock value at
the user-handling steps. -/
def VerifyOTPUserPhase (mac : MacFn) (cfg : Config) (f : Faults) (uuid : String)
    (tUser : Int) (st : AppState) (phoneNumber : String) :
    Except VerifyError AuthResponse × AppState :=
  match UserRepo.getByPhoneNumber st.users phoneNumber with
  | some u =>
    let u2 := u.UpdateLastLogin tUser
    if f.updateUser then (.error .Internal, st)
    else
      let st2 : AppState := { st with users := UserRepo.update st.users u2 }
      if f.mint then (.error .Internal, st2)
      else
        let minted := generateJWT mac cfg.jwtSecret cfg.jwtExpiry tUser u2
        (.ok { token := minted.1, user := u2.ToResponse, expiresAt := minted.2 }, st2)
  | none =>
    if f.createUser then (.error .Internal, st)
    else
      let u := NewUser phoneNumber uuid tUser
      let st1 : AppState := { st with users := UserRepo.create st.users u }
      let u2 := u.UpdateLastLogin tUser
      if f.updateUser then (.error .Internal, st1)
      else
        let st2 : AppState := { st1 with users := UserRepo.update st1.users u2 }
        if f.mint then (.error .Internal, st2)
        else
          let minted := generateJWT mac cfg.jwtSecret cfg.jwtExpiry tUser u2
          (.ok { token := minted.1, user := u2.ToResponse, expiresAt := minted.2 }, st2)

/-- `authService.VerifyOTP` (`internal/services/auth_service.go`). `tFetch`
is the clock value at `GetByPhoneNumber`'s query (`NOW()` in SQL), `tCheck`
the one at `otp.IsValid()`, `tUser` the one at the user-handling steps — the
Go code reads the clock separately at each. On every failure path the state
is whatever the completed calls left behind. -/
def VerifyOTP (mac : MacFn) (cfg : Config) (f : Faults) (uuid : String)
    (tFetch tCheck tUser : Int) (st : AppState) (phoneNumber code : String) :
    Except VerifyError AuthResponse × AppState :=
  if f.fetchOTP then (.error .Internal, st)
  else
    match OTPRepo.getByPhoneNumber st.otps phoneNumber tFetch with
    | none => (.error .NoActiveChallenge, st)
    | some otp =>
      if otp.code ≠ code then (.error .CodeMismatch, st)
      else if !otp.IsValid tCheck then (.error .ChallengeExpired, st)
      else if f.markUsed then (.error .Internal, st)
      else
        let st1 : AppState := { st with otps := OTPRepo.markAsUsed st.otps phoneNumber }
        if f.getUser then (.error .Internal, st1)
        else VerifyOTPUserPhase mac cfg f uuid tUser st1 phoneNumber

namespace OTPRepo

theorem pickLatest_cons (o : OTP) (rest : List OTP) :
    pickLatest (o :: rest) =
      match pickLatest rest with
      | none => some o
      | some b => if o.createdAt ≤ b.createdAt then some b else some o := rfl

theorem pickLatest_cons_isSome (o : OTP) (rest : List OTP) :
    ∃ b, pickLatest (o :: rest) = some b := by
  rw [pickLatest_cons]
  cases hr : pickLatest rest with
  | none => exact ⟨o, rfl⟩
  | some b =>
    by_cases hc : o.createdAt ≤ b.createdAt
    · exact ⟨b, by simp [hc]⟩
    · exact ⟨o, by simp [hc]⟩

theorem pickLatest_eq_none_iff {l : List OTP} : pickLatest l = none ↔ l = [] := by
  cases l with
  | nil => simp [pickLatest]
  | cons o rest =>
    obtain ⟨b, hb⟩ := pickLatest_cons_isSome o rest
    simp [hb]

theorem pickLatest_mem {l : List OTP} {o : OTP} (h : pickLatest l = some o) : o ∈ l := by
  induction l with
  | nil => simp [pickLatest] at h
  | cons a rest ih =>
    rw [pickLatest_cons] at h
    split at h
    · cases h
      exact List.mem_cons_self _ _
    · rename_i b heq
      split at h
      · cases h
        exact List.mem_cons_of_mem _ (ih heq)
      · cases h
        exact List.mem_cons_self _ _

theorem pickLatest_max : ∀ {l : List OTP} {o : OTP}, pickLatest l = some o →
    ∀ x ∈ l, x.createdAt ≤ o.createdAt := by
  intro l
  induction l with
  | nil => intro o h; simp [pickLatest] at h
  | cons a rest ih =>
    intro o h
    rw [pickLatest_cons] at h
    split at h
    · rename_i heq
      have hrest : rest = [] := pickLatest_eq_none_iff.mp heq
      subst hrest
      cases h
      intro x hx
      rw [List.mem_singleton] at hx
      subst hx
      exact le_refl _
    · rename_i b heq
      split at h
      · rename_i hc
        cases h
        intro x hx
        rcases List.mem_cons.mp hx with rfl | hx2
        · exact hc
        · exact ih heq x hx2
      · rename_i hc
        cases h
        intro x hx
        rcases List.mem_cons.mp hx with rfl | hx2
        · exact le_refl _
        · exact le_trans (ih heq x hx2) (le_of_lt (lt_of_not_le hc))

theorem qualifies_iff {phone : String} {now : Int} {o : OTP} :
    qualifies phone now o = true ↔
      o.phoneNumber = phone ∧ o.used = false ∧ now < o.expiresAt := by
  simp [qualifies, Bool.and_eq_true, and_assoc]

theorem getByPhoneNumber_eq_none_iff {store : List OTP} {phone : String} {now : Int} :
    getByPhoneNumber store phone now = none ↔
      ∀ o ∈ store, qualifies phone now o = false := by
  rw [getByPhoneNumber, pickLatest_eq_none_iff, List.filter_eq_nil_iff]
  simp

theorem getByPhoneNumber_some {store : List OTP} {phone : String} {now : Int} {o : OTP}
    (h : getByPhoneNumber store phone now = some o) :
    o ∈ store ∧ qualifies phone now o = true ∧
      ∀ x ∈ store, qualifies phone now x = true → x.createdAt ≤ o.createdAt := by
  have hm := pickLatest_mem h
  have hmax := pickLatest_max h
  rw [List.mem_filter] at hm
  exact ⟨hm.1, hm.2, fun x hx hq => hmax x (List.mem_filter.mpr ⟨hx, hq⟩)⟩

theorem getByPhoneNumber_isSome {store : List OTP} {phone : String} {now : Int} {o : OTP}
    (ho : o ∈ store) (hq : qualifies phone now o = true) :
    ∃ b, getByPhoneNumber store phone now = some b := by
  cases hb : getByPhoneNumber store phone now with
  | none =>
    have := getByPhoneNumber_eq_none_iff.mp hb o ho
    rw [hq] at this
    cases this
  | some b => exact ⟨b, rfl⟩

end OTPRepo

/-- C7: for every identity, `GetByPhoneNumber` (the spec's `LatestValid`)
returns the newest row — greatest creation time, ties resolved to the most
recently created (inserted) row — among the rows for that identity with
`used = false` and `expiresAt > now`, and returns `none` (the Go code maps
`sql.ErrNoRows` to `nil, nil`, not to an error) exactly when no such row
exists. -/
theorem C7_latestValid_newest_unconsumed_unexpired
    (store : List OTP) (phone : String) (now : Int) :
    (∀ o, OTPRepo.getByPhoneNumber store phone now = some o →
        o ∈ store ∧ o.phoneNumber = phone ∧ o.used = false ∧ now < o.expiresAt ∧
        ∀ x ∈ store, x.phoneNumber = phone → x.used = false → now < x.expiresAt →
          x.createdAt ≤ o.createdAt) ∧
    (OTPRepo.getByPhoneNumber store phone now = none ↔
        ∀ o ∈ store, ¬(o.phoneNumber = phone ∧ o.used = false ∧ now < o.expiresAt)) := by
  constructor
  · intro o h
    obtain ⟨hmem, hq, hmax⟩ := OTPRepo.getByPhoneNumber_some h
    obtain ⟨h1, h2, h3⟩ := OTPRepo.qualifies_iff.mp hq
    exact ⟨hmem, h1, h2, h3, fun x hx hp hu he =>
      hmax x hx (OTPRepo.qualifies_iff.mpr ⟨hp, hu, he⟩)⟩
  · rw [OTPRepo.getByPhoneNumber_eq_none_iff]
    constructor
    · intro h o ho hq
      have := h o ho
      rw [OTPRepo.qualifies_iff.mpr hq] at this
      cases this
    · intro h o ho
      cases hq : OTPRepo.qualifies phone now o with
      | false => rfl
      | true => exact absurd (OTPRepo.qualifies_iff.mp hq) (h o ho)

/-- Witness for C7 on a concrete store: among two live rows for "p" and one
for another phone, the newer live row is returned; on a store whose only row
for "p" is expired, the result is `none`. -/
theorem C7_witness :
    (OTPRepo.getByPhoneNumber
        [ { phoneNumber := "p", code := "11", expiresAt := 10, createdAt := 1, used := false }
        , { phoneNumber := "p", code := "22", expiresAt := 10, createdAt := 2, used := false }
        , { phoneNumber := "q", code := "44", expiresAt := 10, createdAt := 9, used := false } ]
        "p" 5 =
      some { phoneNumber := "p", code := "22", expiresAt := 10, createdAt := 2, used := false }) ∧
    ({ phoneNumber := "p", code := "22", expiresAt := 10, createdAt := 2, used := (false : Bool) } :
        OTP).used = false ∧
    (5 : Int) < 10 := by
  refine ⟨by decide, ?_, by decide⟩
  have h := (C7_latestValid_newest_unconsumed_unexpired
    [ { phoneNumber := "p", code := "11", expiresAt := 10, createdAt := 1, used := false }
    , { phoneNumber := "p", code := "22", expiresAt := 10, createdAt := 2, used := false }
    , { phoneNumber := "q", code := "44", expiresAt := 10, createdAt := 9, used := false } ]
    "p" 5).1
    { phoneNumber := "p", code := "22", expiresAt := 10, createdAt := 2, used := false }
    (by decide)
  exact h.2.2.1

/-- C2 counterexample: `MarkAsUsed` (the spec's `Consume`) does not restrict
itself to the rows matching `LatestValid`'s filter `used = false ∧
expiresAt > now`. The store holds one row for "p" that is unconsumed but
already expired at call time `now = 5`, so it fails that filter — yet
`MarkAsUsed` (whose SQL filter is only `used = false`) alters it. -/
theorem C2_counterexample :
    OTPRepo.qualifies "p" 5
      { phoneNumber := "p", code := "1", expiresAt := 0, createdAt := 0, used := false } = false ∧
    OTPRepo.markAsUsed
      [ { phoneNumber := "p", code := "1", expiresAt := 0, createdAt := 0, used := false } ]
      "p" =
      [ { phoneNumber := "p", code := "1", expiresAt := 0, createdAt := 0, used := true } ] := by
  decide

/-- C2 (amended): for every identity, `MarkAsUsed` marks as consumed exactly
the currently-unconsumed rows for that identity — the consumed-flag half of
`LatestValid`'s filter, with no expiry condition, so unconsumed rows that
have already expired are consumed too — and changes nothing else: row count
and row order are preserved, each row keeps its code, expiry, creation time
and identity (only the consumed flag can change), and every row of any other
identity is left exactly as it was (its consumed flag included, since for
those rows `used || (phoneNumber == phone)` is `used`). -/
theorem C2_markAsUsed_consumesAllUnconsumed (store : List OTP) (phone : String) :
    OTPRepo.markAsUsed store phone =
      store.map (fun o => { o with used := o.used || (o.phoneNumber == phone) }) := by
  unfold OTPRepo.markAsUsed
  induction store with
  | nil => rfl
  | cons a rest ih =>
    simp only [List.map_cons, List.cons.injEq]
    refine ⟨?_, ih⟩
    cases a with
    | mk pn c e cr u =>
      cases u <;> by_cases hp : (pn == phone) = true <;> simp [hp]

theorem getRecentOTPCount_map (f : OTP → OTP)
    (hf : ∀ o : OTP, (f o).phoneNumber = o.phoneNumber ∧ (f o).createdAt = o.createdAt)
    (store : List OTP) (phone : String) (since : Int) :
    OTPRepo.getRecentOTPCount (store.map f) phone since =
      OTPRepo.getRecentOTPCount store phone since := by
  unfold OTPRepo.getRecentOTPCount
  induction store with
  | nil => rfl
  | cons a rest ih =>
    simp only [List.map_cons, List.filter_cons, (hf a).1, (hf a).2]
    by_cases hc : (a.phoneNumber == phone && decide (since ≤ a.createdAt)) = true
    · simp [hc, ih]
    · simp [hc, ih]

/-- C1: for every identity, `GenerateOTP` fails with the rate-limit error
exactly when the number of rows created for that identity at or after
`now - rateLimitWindow` is at least `maxRequests`; in that case the table
and the entropy stream are both returned untouched (no row created, no code
drawn). Below the cap, a challenge row is created (given the entropy for the
code, whose need spec section 4.1 treats as fatal when unmet). The count is
insensitive to the consumed flag and to the expiry instant of the counted
rows: consumed and expired rows count too. -/
theorem C1_generateOTP_rateLimit (cfg : Config) (entropy : List (Fin 10)) (now : Int)
    (store : List OTP) (phone : String) :
    (cfg.maxRequests ≤ OTPRepo.getRecentOTPCount store phone (now - cfg.rateLimitWindow) →
      GenerateOTP cfg entropy now store phone = (.error .RateLimited, store, entropy)) ∧
    (OTPRepo.getRecentOTPCount store phone (now - cfg.rateLimitWindow) < cfg.maxRequests →
      ∀ code rest, generateRandomCode entropy cfg.otpLength = some (code, rest) →
        GenerateOTP cfg entropy now store phone =
          (.ok { message := "OTP sent successfully", expiresIn := cfg.expiryMinutes },
           store ++ [NewOTP phone code cfg.expiryMinutes cfg.minuteUnit now], rest)) ∧
    (∀ since,
      OTPRepo.getRecentOTPCount (store.map (fun o => { o with used := true })) phone since =
        OTPRepo.getRecentOTPCount store phone since) ∧
    (∀ since bound,
      OTPRepo.getRecentOTPCount (store.map (fun o => { o with expiresAt := bound })) phone since =
        OTPRepo.getRecentOTPCount store phone since) := by
  refine ⟨?_, ?_, ?_, ?_⟩
  · intro h
    simp [GenerateOTP, if_pos h]
  · intro h code rest hcode
    simp only [GenerateOTP]
    rw [if_neg (Nat.not_le.mpr h), hcode]
    rfl
  · intro since
    exact getRecentOTPCount_map (fun o => { o with used := true })
      (fun o => ⟨rfl, rfl⟩) store phone since
  · intro since bound
    exact getRecentOTPCount_map (fun o => { o with expiresAt := bound })
      (fun o => ⟨rfl, rfl⟩) store phone since

/-- Witness for C1: with `maxRequests = 1` and one already-consumed row in
the window, the next call is rate-limited and leaves table and entropy
untouched; on an empty table the call goes through and appends the row. -/
theorem C1_witness :
    ((1 ≤ OTPRepo.getRecentOTPCount
        [ { phoneNumber := "p", code := "77", expiresAt := 150, createdAt := 100, used := true } ]
        "p" (200 - 600)) ∧
      GenerateOTP
        { otpLength := 2, expiryMinutes := 2, minuteUnit := 60, rateLimitWindow := 600
        , maxRequests := 1, jwtSecret := "sec", jwtExpiry := 3600 }
        [(1 : Fin 10), (2 : Fin 10)] 200
        [ { phoneNumber := "p", code := "77", expiresAt := 150, createdAt := 100, used := true } ]
        "p" =
        (.error .RateLimited,
         [ { phoneNumber := "p", code := "77", expiresAt := 150, createdAt := 100, used := true } ],
         [(1 : Fin 10), (2 : Fin 10)])) ∧
    ((OTPRepo.getRecentOTPCount ([] : List OTP) "p" (200 - 600) < 1) ∧
      GenerateOTP
        { otpLength := 2, expiryMinutes := 2, minuteUnit := 60, rateLimitWindow := 600
        , maxRequests := 1, jwtSecret := "sec", jwtExpiry := 3600 }
        [(1 : Fin 10), (2 : Fin 10)] 200 [] "p" =
        (.ok { message := "OTP sent successfully", expiresIn := 2 },
         [NewOTP "p" "12" 2 60 200], [])) := by
  constructor
  · exact ⟨by decide,
      (C1_generateOTP_rateLimit
        { otpLength := 2, expiryMinutes := 2, minuteUnit := 60, rateLimitWindow := 600
        , maxRequests := 1, jwtSecret := "sec", jwtExpiry := 3600 }
        [(1 : Fin 10), (2 : Fin 10)] 200
        [ { phoneNumber := "p", code := "77", expiresAt := 150, createdAt := 100, used := true } ]
        "p").1 (by decide)⟩
  · exact ⟨by decide,
      (C1_generateOTP_rateLimit
        { otpLength := 2, expiryMinutes := 2, minuteUnit := 60, rateLimitWindow := 600
        , maxRequests := 1, jwtSecret := "sec", jwtExpiry := 3600 }
        [(1 : Fin 10), (2 : Fin 10)] 200 [] "p").2.1 (by decide) "12" [] (by decide)⟩

theorem digitChar_isDigit : ∀ d : Fin 10, (digitChar d).isDigit = true := by
  decide

theorem generateRandomCode_eq : ∀ (n : Nat) (entropy : List (Fin 10)),
    generateRandomCode entropy n =
      if n ≤ entropy.length then
        some (String.mk ((entropy.take n).map digitChar), entropy.drop n)
      else none := by
  intro n
  induction n with
  | zero =>
    intro entropy
    simp [generateRandomCode]
  | succ m ih =>
    intro entropy
    cases entropy with
    | nil => simp [generateRandomCode]
    | cons d rest =>
      simp only [generateRandomCode, ih rest]
      by_cases h : m ≤ rest.length
      · simp [h, Nat.succ_le_succ h]
      · have h2 : ¬ m + 1 ≤ rest.length + 1 := fun hh => h (Nat.le_of_succ_le_succ hh)
        simp [h, h2]

/-- C9: for every requested length, a successful `generateRandomCode` run
returns a string of exactly that many characters, each the decimal digit of
one draw of `rand.Int(rand.Reader, 10)` (so each character lies in 0-9), in
draw order; the function fails exactly when the entropy stream cannot supply
one draw per character (entropy-source exhaustion, which the caller treats
as fatal); and it is a pure function of the stream — its only other output
is the unconsumed remainder of the stream, so it has no side effects. That
the draws come from `crypto/rand` (a cryptographically secure source) is a
fact of the source imports reflected in the model of the stream, not a
property provable of the algorithm. -/
theorem C9_generateRandomCode_spec (entropy : List (Fin 10)) (n : Nat) :
    (∀ code rest, generateRandomCode entropy n = some (code, rest) →
        code.length = n ∧
        code.toList = (entropy.take n).map digitChar ∧
        (∀ c ∈ code.toList, c.isDigit = true) ∧
        rest = entropy.drop n) ∧
    (generateRandomCode entropy n = none ↔ entropy.length < n) := by
  have he := generateRandomCode_eq n entropy
  constructor
  · intro code rest h
    rw [he] at h
    by_cases hn : n ≤ entropy.length
    · rw [if_pos hn] at h
      have h2 := Option.some.inj h
      have hcode : code = String.mk ((entropy.take n).map digitChar) :=
        (Prod.mk.injEq _ _ _ _ ▸ h2).1.symm
      have hrest : rest = entropy.drop n := (Prod.mk.injEq _ _ _ _ ▸ h2).2.symm
      subst hcode
      refine ⟨?_, rfl, ?_, hrest⟩
      · simp [String.length, List.length_take, Nat.min_eq_left hn]
      · intro c hc
        simp only [String.toList, List.mem_map] at hc
        obtain ⟨d, _, rfl⟩ := hc
        exact digitChar_isDigit d
    · rw [if_neg hn] at h
      exact Option.noConfusion h
  · rw [he]
    by_cases hn : n ≤ entropy.length
    · simp [hn, Nat.not_lt.mpr hn]
    · simp [hn, Nat.lt_of_not_le hn]

/-- Witness for C9: three draws produce the two-character digit string "37"
with one draw left over, and a two-character request against a single draw
is exactly an exhaustion failure. -/
theorem C9_witness :
    (generateRandomCode [(3 : Fin 10), (7 : Fin 10), (0 : Fin 10)] 2 =
        some ("37", [(0 : Fin 10)]) ∧
      ("37" : String).length = 2 ∧ (∀ c ∈ ("37" : String).toList, c.isDigit = true)) ∧
    (generateRandomCode [(3 : Fin 10)] 2 = none ∧
      ([(3 : Fin 10)] : List (Fin 10)).length < 2) := by
  constructor
  · refine ⟨by decide, ?_, ?_⟩
    · exact ((C9_generateRandomCode_spec [(3 : Fin 10), (7 : Fin 10), (0 : Fin 10)] 2).1
        "37" [(0 : Fin 10)] (by decide)).1
    · exact ((C9_generateRandomCode_spec [(3 : Fin 10), (7 : Fin 10), (0 : Fin 10)] 2).1
        "37" [(0 : Fin 10)] (by decide)).2.2.1
  · exact ⟨(C9_generateRandomCode_spec [(3 : Fin 10)] 2).2.mpr (by decide), by decide⟩

/-- Serialized name of a signing algorithm (the JOSE header value). -/
def algTag : SigAlg → String
  | .HS256 => "HS256"
  | .HS384 => "HS384"
  | .HS512 => "HS512"
  | .RS256 => "RS256"
  | .AlgNone => "none"

/-- A concrete stand-in MAC used to instantiate the abstract primitive on
closed inputs. -/
def macSample : MacFn := fun a secret c =>
  algTag a ++ "." ++ secret ++ "." ++ c.userID ++ "." ++ c.phoneNumber

/-- A concrete user for closed instantiations. -/
def sampleUser : User :=
  { id := "uid", phoneNumber := "ph", createdAt := 0, updatedAt := 0, lastLoginAt := none }

/-- C5: for every user, validating the token minted by `generateJWT` at any
instant before its expiry returns exactly the claims {user id, user phone,
expiry}; at or past the expiry instant validation fails. Alteration of the
token is alteration of a parsed component (algorithm, claims or signature —
a byte-level change of the serialization either breaks parsing, which
`ParseWithClaims` rejects outright, or changes a component): a token whose
signature part differs from the minted one while algorithm and claims are
unchanged is always rejected, and any other altered token is rejected
whenever its signature is not itself a valid MAC of its content under the
key — the no-forgery guarantee of the MAC, which is the cryptographic
assumption and cannot be discharged structurally. -/
theorem C5_mintValidate_roundTrip (mac : MacFn) (secret : String)
    (jwtExpiry now : Int) (u : User) :
    (∀ tm : Int, tm < (generateJWT mac secret jwtExpiry now u).2 →
        ValidateToken mac secret tm (generateJWT mac secret jwtExpiry now u).1 =
          some { userID := u.id, phoneNumber := u.phoneNumber
               , exp := (generateJWT mac secret jwtExpiry now u).2 }) ∧
    (∀ tm : Int, (generateJWT mac secret jwtExpiry now u).2 ≤ tm →
        ValidateToken mac secret tm (generateJWT mac secret jwtExpiry now u).1 = none) ∧
    (∀ (tm : Int) (tok : Token),
        tok.alg = (generateJWT mac secret jwtExpiry now u).1.alg →
        tok.claims = (generateJWT mac secret jwtExpiry now u).1.claims →
        tok.sig ≠ (generateJWT mac secret jwtExpiry now u).1.sig →
        ValidateToken mac secret tm tok = none) ∧
    (∀ (tm : Int) (tok : Token),
        tok ≠ (generateJWT mac secret jwtExpiry now u).1 →
        tok.sig ≠ mac tok.alg secret tok.claims →
        ValidateToken mac secret tm tok = none) := by
  refine ⟨?_, ?_, ?_, ?_⟩
  · intro tm h
    simp only [generateJWT] at h ⊢
    simp [ValidateToken, SigAlg.isHMAC, not_le.mpr h]
  · intro tm h
    simp only [generateJWT] at h ⊢
    simp [ValidateToken, SigAlg.isHMAC, h]
  · intro tm tok h1 h2 h3
    simp only [generateJWT] at h1 h2 h3
    simp [ValidateToken, h1, h2, SigAlg.isHMAC, h3]
  · intro tm tok h1 h2
    by_cases ha : tok.alg.isHMAC = true
    · simp [ValidateToken, ha, h2]
    · simp only [Bool.not_eq_true] at ha
      simp [ValidateToken, ha]

/-- Witness for C5 at a concrete MAC, secret, user and lifetime: the
round trip succeeds at an instant before expiry, fails at one after it, a
signature-tampered copy of the minted token is rejected, and a token with
altered algorithm and claims whose signature is no valid MAC is rejected. -/
theorem C5_witness :
    ((50 : Int) < (generateJWT macSample "sec" 100 5 sampleUser).2 ∧
      ValidateToken macSample "sec" 50 (generateJWT macSample "sec" 100 5 sampleUser).1 =
        some { userID := "uid", phoneNumber := "ph", exp := 105 }) ∧
    ((generateJWT macSample "sec" 100 5 sampleUser).2 ≤ (120 : Int) ∧
      ValidateToken macSample "sec" 120 (generateJWT macSample "sec" 100 5 sampleUser).1 =
        none) ∧
    (ValidateToken macSample "sec" 50
        { alg := .HS256, claims := { userID := "uid", phoneNumber := "ph", exp := 105 }
        , sig := "forged" } = none) ∧
    (ValidateToken macSample "sec" 50
        { alg := .HS384, claims := { userID := "eve", phoneNumber := "ph2", exp := 105 }
        , sig := "zz" } = none) := by
  refine ⟨⟨by decide, ?_⟩, ⟨by decide, ?_⟩, ?_, ?_⟩
  · exact (C5_mintValidate_roundTrip macSample "sec" 100 5 sampleUser).1 50 (by decide)
  · exact (C5_mintValidate_roundTrip macSample "sec" 100 5 sampleUser).2.1 120 (by decide)
  · exact (C5_mintValidate_roundTrip macSample "sec" 100 5 sampleUser).2.2.1 50
      { alg := .HS256, claims := { userID := "uid", phoneNumber := "ph", exp := 105 }
      , sig := "forged" } (by decide) (by decide) (by decide)
  · exact (C5_mintValidate_roundTrip macSample "sec" 100 5 sampleUser).2.2.2 50
      { alg := .HS384, claims := { userID := "eve", phoneNumber := "ph2", exp := 105 }
      , sig := "zz" } (by decide) (by decide)

/-- C6 counterexample: the key function of `ValidateToken` only checks that
the signing method is in the HMAC family (`token.Method.(*jwt.SigningMethodHMAC)`),
not that it is HS256 — the single algorithm `generateJWT` mints with. A
token whose header says HS384 and whose signature is a valid HMAC of its
content under the configured secret is accepted, so validation does not
fail whenever the algorithm differs from the expected HS256. -/
theorem C6_counterexample :
    SigAlg.HS384 ≠ SigAlg.HS256 ∧
    ValidateToken macSample "key" 0
      { alg := .HS384
      , claims := { userID := "u1", phoneNumber := "p1", exp := 100 }
      , sig := macSample .HS384 "key" { userID := "u1", phoneNumber := "p1", exp := 100 } } =
      some { userID := "u1", phoneNumber := "p1", exp := 100 } := by
  decide

/-- C6 (amended): `ValidateToken` fails whenever the token's signing
algorithm is outside the HMAC family (HS256, HS384, HS512) — not whenever
it differs from the HS256 that `generateJWT` uses: an HMAC-family token of
another variant passes the algorithm check and is accepted when its MAC
verifies. It also fails on a signature that does not verify and on elapsed
expiry, and a token it accepts passed all three checks. (A byte stream that
does not parse as a token at all is rejected by `jwt.ParseWithClaims`
before these checks and is outside the parsed-token model.) -/
theorem C6_validateToken_failures (mac : MacFn) (secret : String) (now : Int) (tok : Token) :
    (tok.alg.isHMAC = false → ValidateToken mac secret now tok = none) ∧
    (tok.sig ≠ mac tok.alg secret tok.claims → ValidateToken mac secret now tok = none) ∧
    (tok.claims.exp ≤ now → ValidateToken mac secret now tok = none) ∧
    (∀ c, ValidateToken mac secret now tok = some c →
        c = tok.claims ∧ tok.alg.isHMAC = true ∧
        tok.sig = mac tok.alg secret tok.claims ∧ now < tok.claims.exp) := by
  refine ⟨?_, ?_, ?_, ?_⟩
  · intro h
    simp [ValidateToken, h]
  · intro h
    by_cases ha : tok.alg.isHMAC = true
    · simp [ValidateToken, ha, h]
    · simp only [Bool.not_eq_true] at ha
      simp [ValidateToken, ha]
  · intro h
    by_cases ha : tok.alg.isHMAC = true
    · by_cases hs : tok.sig = mac tok.alg secret tok.claims
      · simp [ValidateToken, ha, hs, h]
      · simp [ValidateToken, ha, hs]
    · simp only [Bool.not_eq_true] at ha
      simp [ValidateToken, ha]
  · intro c h
    simp only [ValidateToken] at h
    split at h
    · exact Option.noConfusion h
    · split at h
      · exact Option.noConfusion h
      · split at h
        · exact Option.noConfusion h
        · rename_i ha hs he
          refine ⟨(Option.some.inj h).symm, ?_, ?_, ?_⟩
          · simpa using ha
          · exact not_not.mp hs
          · exact lt_of_not_le he

theorem OTP.isValid_iff {o : OTP} {now : Int} :
    o.IsValid now = true ↔ o.used = false ∧ now ≤ o.expiresAt := by
  simp [OTP.IsValid, OTP.IsExpired, not_lt]

theorem userPhase_preserves_otps (mac : MacFn) (cfg : Config) (f : Faults) (uuid : String)
    (tUser : Int) (st : AppState) (phone : String) :
    (VerifyOTPUserPhase mac cfg f uuid tUser st phone).2.otps = st.otps := by
  unfold VerifyOTPUserPhase
  cases hu : UserRepo.getByPhoneNumber st.users phone with
  | some u =>
    by_cases h1 : f.updateUser = true <;> by_cases h2 : f.mint = true <;> simp [h1, h2]
  | none =>
    by_cases h0 : f.createUser = true <;> by_cases h1 : f.updateUser = true <;>
      by_cases h2 : f.mint = true <;> simp [h0, h1, h2]

theorem userPhase_fail (mac : MacFn) (cfg : Config) (f : Faults) (uuid : String)
    (tUser : Int) (st : AppState) (phone : String)
    (hfail : f.updateUser = true ∨ f.mint = true ∨
      (f.createUser = true ∧ UserRepo.getByPhoneNumber st.users phone = none)) :
    (VerifyOTPUserPhase mac cfg f uuid tUser st phone).1 = .error .Internal := by
  unfold VerifyOTPUserPhase
  cases hu : UserRepo.getByPhoneNumber st.users phone with
  | some u =>
    rcases hfail with h | h | ⟨h, hnone⟩
    · simp [h]
    · by_cases h1 : f.updateUser = true <;> simp [h1, h]
    · rw [hu] at hnone
      exact Option.noConfusion hnone
  | none =>
    rcases hfail with h | h | ⟨h, _⟩
    · by_cases h0 : f.createUser = true <;> simp [h0, h]
    · by_cases h0 : f.createUser = true <;> by_cases h1 : f.updateUser = true <;>
        simp [h0, h1, h]
    · simp [h]

theorem userPhase_error_internal (mac : MacFn) (cfg : Config) (f : Faults) (uuid : String)
    (tUser : Int) (st : AppState) (phone : String) (e : VerifyError)
    (h : (VerifyOTPUserPhase mac cfg f uuid tUser st phone).1 = .error e) :
    e = .Internal := by
  unfold VerifyOTPUserPhase at h
  rcases hu : UserRepo.getByPhoneNumber st.users phone with _ | u <;> rw [hu] at h
  · by_cases h0 : f.createUser = true
    · simp [h0] at h
      exact h.symm
    · by_cases h1 : f.updateUser = true
      · simp [h0, h1] at h
        exact h.symm
      · by_cases h2 : f.mint = true
        · simp [h0, h1, h2] at h
          exact h.symm
        · simp [h0, h1, h2] at h
  · by_cases h1 : f.updateUser = true
    · simp [h1] at h
      exact h.symm
    · by_cases h2 : f.mint = true
      · simp [h1, h2] at h
        exact h.symm
      · simp [h1, h2] at h

theorem userPhase_ok (mac : MacFn) (cfg : Config) (uuid : String)
    (tUser : Int) (st : AppState) (phone : String) :
    ∃ r st2, VerifyOTPUserPhase mac cfg Faults.none_ uuid tUser st phone = (.ok r, st2) := by
  unfold VerifyOTPUserPhase
  rcases hu : UserRepo.getByPhoneNumber st.users phone with _ | u
  · exact ⟨_, _, rfl⟩
  · exact ⟨_, _, rfl⟩

/-- C3: for every identity and submitted code (with the OTP lookup itself
succeeding, `f.fetchOTP = false`): when no unconsumed, unexpired challenge
exists at fetch time, `VerifyOTP` fails with "invalid or expired OTP"; when
the submitted code differs from the fetched challenge's code it fails with
"invalid OTP code"; when the challenge is no longer valid at the re-check
instant (it expired, or was consumed, between fetch and comparison) it fails
with "OTP has expired"; a success is only possible on a challenge that was
unconsumed and strictly unexpired at fetch time and still unexpired at the
re-check, with the matching code — and in particular, when every challenge
of the identity is already expired at fetch time, the result is always the
"invalid or expired OTP" failure, never a stale success. -/
theorem C3_verify_accepts_only_valid (mac : MacFn) (cfg : Config) (f : Faults)
    (uuid : String) (tFetch tCheck tUser : Int) (st : AppState) (phone code : String)
    (hf : f.fetchOTP = false) :
    (OTPRepo.getByPhoneNumber st.otps phone tFetch = none →
        VerifyOTP mac cfg f uuid tFetch tCheck tUser st phone code =
          (.error .NoActiveChallenge, st)) ∧
    (∀ otp, OTPRepo.getByPhoneNumber st.otps phone tFetch = some otp →
        otp.code ≠ code →
        VerifyOTP mac cfg f uuid tFetch tCheck tUser st phone code =
          (.error .CodeMismatch, st)) ∧
    (∀ otp, OTPRepo.getByPhoneNumber st.otps phone tFetch = some otp →
        otp.code = code → otp.IsValid tCheck = false →
        VerifyOTP mac cfg f uuid tFetch tCheck tUser st phone code =
          (.error .ChallengeExpired, st)) ∧
    (∀ r st2, VerifyOTP mac cfg f uuid tFetch tCheck tUser st phone code = (.ok r, st2) →
        ∃ otp, OTPRepo.getByPhoneNumber st.otps phone tFetch = some otp ∧
          otp.code = code ∧ otp.used = false ∧ tFetch < otp.expiresAt ∧
          tCheck ≤ otp.expiresAt) ∧
    ((∀ o ∈ st.otps, o.phoneNumber = phone → o.expiresAt ≤ tFetch) →
        VerifyOTP mac cfg f uuid tFetch tCheck tUser st phone code =
          (.error .NoActiveChallenge, st)) := by
  refine ⟨?_, ?_, ?_, ?_, ?_⟩
  · intro h
    simp [VerifyOTP, hf, h]
  · intro otp h hne
    simp [VerifyOTP, hf, h, hne]
  · intro otp h he hv
    simp [VerifyOTP, hf, h, he, hv]
  · intro r st2 h
    unfold VerifyOTP at h
    rw [hf] at h
    simp only [Bool.false_eq_true, if_false] at h
    rcases ho : OTPRepo.getByPhoneNumber st.otps phone tFetch with _ | otp <;>
      simp only [ho] at h
    · exact absurd h (by simp)
    · by_cases hc : otp.code = code
      · by_cases hv : otp.IsValid tCheck = true
        · obtain ⟨_, hq, _⟩ := OTPRepo.getByPhoneNumber_some ho
          obtain ⟨_, hu2, he2⟩ := OTPRepo.qualifies_iff.mp hq
          obtain ⟨_, hle⟩ := OTP.isValid_iff.mp hv
          exact ⟨otp, rfl, hc, hu2, he2, hle⟩
        · rw [Bool.not_eq_true] at hv
          simp [hc, hv] at h
      · simp [hc] at h
  · intro hall
    have hnone : OTPRepo.getByPhoneNumber st.otps phone tFetch = none := by
      rw [OTPRepo.getByPhoneNumber_eq_none_iff]
      intro o ho
      cases hq : OTPRepo.qualifies phone tFetch o with
      | false => rfl
      | true =>
        obtain ⟨hp, _, hlt⟩ := OTPRepo.qualifies_iff.mp hq
        exact absurd hlt (not_lt.mpr (hall o ho hp))
    simp [VerifyOTP, hf, hnone]

/-- Witness for C3 at concrete states: an empty table yields the
no-active-challenge failure; a wrong code against a live challenge yields
the code-mismatch failure; a challenge that was live at fetch time
(`tFetch = 5 < 10`) but expired before the re-check (`tCheck = 11 > 10`)
yields the has-expired failure. -/
theorem C3_witness :
    (VerifyOTP macSample
        { otpLength := 2, expiryMinutes := 2, minuteUnit := 60, rateLimitWindow := 600
        , maxRequests := 1, jwtSecret := "sec", jwtExpiry := 3600 }
        Faults.none_ "u1" 5 5 6 { otps := [], users := [] } "p" "12" =
      (.error .NoActiveChallenge, { otps := [], users := [] })) ∧
    (VerifyOTP macSample
        { otpLength := 2, expiryMinutes := 2, minuteUnit := 60, rateLimitWindow := 600
        , maxRequests := 1, jwtSecret := "sec", jwtExpiry := 3600 }
        Faults.none_ "u1" 5 5 6
        { otps := [{ phoneNumber := "p", code := "12", expiresAt := 10, createdAt := 1
                   , used := false }], users := [] } "p" "99" =
      (.error .CodeMismatch,
        { otps := [{ phoneNumber := "p", code := "12", expiresAt := 10, createdAt := 1
                   , used := false }], users := [] })) ∧
    (VerifyOTP macSample
        { otpLength := 2, expiryMinutes := 2, minuteUnit := 60, rateLimitWindow := 600
        , maxRequests := 1, jwtSecret := "sec", jwtExpiry := 3600 }
        Faults.none_ "u1" 5 11 11
        { otps := [{ phoneNumber := "p", code := "12", expiresAt := 10, createdAt := 1
                   , used := false }], users := [] } "p" "12" =
      (.error .ChallengeExpired,
        { otps := [{ phoneNumber := "p", code := "12", expiresAt := 10, createdAt := 1
                   , used := false }], users := [] })) := by
  refine ⟨?_, ?_, ?_⟩
  · exact (C3_verify_accepts_only_valid macSample
      { otpLength := 2, expiryMinutes := 2, minuteUnit := 60, rateLimitWindow := 600
      , maxRequests := 1, jwtSecret := "sec", jwtExpiry := 3600 }
      Faults.none_ "u1" 5 5 6 { otps := [], users := [] } "p" "12" rfl).1 (by decide)
  · exact (C3_verify_accepts_only_valid macSample
      { otpLength := 2, expiryMinutes := 2, minuteUnit := 60, rateLimitWindow := 600
      , maxRequests := 1, jwtSecret := "sec", jwtExpiry := 3600 }
      Faults.none_ "u1" 5 5 6
      { otps := [{ phoneNumber := "p", code := "12", expiresAt := 10, createdAt := 1
                 , used := false }], users := [] } "p" "99" rfl).2.1
      { phoneNumber := "p", code := "12", expiresAt := 10, createdAt := 1, used := false }
      (by decide) (by decide)
  · exact (C3_verify_accepts_only_valid macSample
      { otpLength := 2, expiryMinutes := 2, minuteUnit := 60, rateLimitWindow := 600
      , maxRequests := 1, jwtSecret := "sec", jwtExpiry := 3600 }
      Faults.none_ "u1" 5 11 11
      { otps := [{ phoneNumber := "p", code := "12", expiresAt := 10, createdAt := 1
                 , used := false }], users := [] } "p" "12" rfl).2.2.1
      { phoneNumber := "p", code := "12", expiresAt := 10, createdAt := 1, used := false }
      (by decide) (by decide) (by decide)

/-- C10: for every identity and submitted code (with the OTP lookup itself
succeeding, `f.fetchOTP = false`), when `VerifyOTP` fails with the
no-active-challenge or the code-mismatch error the returned state is exactly
the input state — no challenge consumed, no user row created or updated, no
token minted (the function returns before any of those steps). Consequently
a caller who mistyped can resubmit: after a code-mismatch failure, a verify
of the same state with the fetched challenge's own code succeeds whenever
the challenge is fetched and still valid at the new instants and the
external calls do not fail. -/
theorem C10_mismatch_leaves_state_unchanged (mac : MacFn) (cfg : Config) (f : Faults)
    (uuid : String) (tFetch tCheck tUser : Int) (st : AppState) (phone code : String)
    (hf : f.fetchOTP = false) :
    ((VerifyOTP mac cfg f uuid tFetch tCheck tUser st phone code).1 =
          .error .NoActiveChallenge ∨
      (VerifyOTP mac cfg f uuid tFetch tCheck tUser st phone code).1 =
          .error .CodeMismatch →
      (VerifyOTP mac cfg f uuid tFetch tCheck tUser st phone code).2 = st) ∧
    (∀ (otp : OTP) (tF2 tC2 tU2 : Int) (uuid2 : String),
      (VerifyOTP mac cfg f uuid tFetch tCheck tUser st phone code).1 =
          .error .CodeMismatch →
      OTPRepo.getByPhoneNumber st.otps phone tF2 = some otp →
      otp.IsValid tC2 = true →
      ∃ r st2, VerifyOTP mac cfg Faults.none_ uuid2 tF2 tC2 tU2 st phone otp.code =
        (.ok r, st2)) := by
  constructor
  · intro hdisj
    unfold VerifyOTP at hdisj ⊢
    rw [hf] at hdisj ⊢
    simp only [Bool.false_eq_true, if_false] at hdisj ⊢
    rcases ho : OTPRepo.getByPhoneNumber st.otps phone tFetch with _ | otp <;>
      simp only [ho] at hdisj ⊢
    by_cases hc : otp.code = code
    case neg => simp [hc]
    case pos =>
      by_cases hv : otp.IsValid tCheck = true
      case neg =>
        rw [Bool.not_eq_true] at hv
        simp [hc, hv] at hdisj
      case pos =>
        exfalso
        by_cases hm : f.markUsed = true
        · simp [hc, hv, hm] at hdisj
        · by_cases hg : f.getUser = true
          · simp [hc, hv, hm, hg] at hdisj
          · simp [hc, hv, hm, hg] at hdisj
            rcases hdisj with h | h
            · have := userPhase_error_internal mac cfg f uuid tUser
                { st with otps := OTPRepo.markAsUsed st.otps phone } phone _ h
              exact absurd this (by decide)
            · have := userPhase_error_internal mac cfg f uuid tUser
                { st with otps := OTPRepo.markAsUsed st.otps phone } phone _ h
              exact absurd this (by decide)
  · intro otp tF2 tC2 tU2 uuid2 hmis ho2 hv
    obtain ⟨r, st2, hphase⟩ := userPhase_ok mac cfg uuid2 tU2
      { st with otps := OTPRepo.markAsUsed st.otps phone } phone
    refine ⟨r, st2, ?_⟩
    simpa [VerifyOTP, Faults.none_, ho2, hv] using hphase

/-- Witness for C10: a wrong code against a live challenge leaves the state
exactly as it was, and resubmitting the challenge's own code against that
unchanged state succeeds. -/
theorem C10_witness :
    ((VerifyOTP macSample
        { otpLength := 2, expiryMinutes := 2, minuteUnit := 60, rateLimitWindow := 600
        , maxRequests := 1, jwtSecret := "sec", jwtExpiry := 3600 }
        Faults.none_ "u1" 5 5 6
        { otps := [{ phoneNumber := "p", code := "12", expiresAt := 10, createdAt := 1
                   , used := false }], users := [] } "p" "99").2 =
      { otps := [{ phoneNumber := "p", code := "12", expiresAt := 10, createdAt := 1
                 , used := false }], users := [] }) ∧
    (∃ r st2, VerifyOTP macSample
        { otpLength := 2, expiryMinutes := 2, minuteUnit := 60, rateLimitWindow := 600
        , maxRequests := 1, jwtSecret := "sec", jwtExpiry := 3600 }
        Faults.none_ "u2" 5 5 6
        { otps := [{ phoneNumber := "p", code := "12", expiresAt := 10, createdAt := 1
                   , used := false }], users := [] } "p"
        ({ phoneNumber := "p", code := "12", expiresAt := 10, createdAt := 1
         , used := false } : OTP).code = (.ok r, st2)) := by
  constructor
  · exact (C10_mismatch_leaves_state_unchanged macSample
      { otpLength := 2, expiryMinutes := 2, minuteUnit := 60, rateLimitWindow := 600
      , maxRequests := 1, jwtSecret := "sec", jwtExpiry := 3600 }
      Faults.none_ "u1" 5 5 6
      { otps := [{ phoneNumber := "p", code := "12", expiresAt := 10, createdAt := 1
                 , used := false }], users := [] } "p" "99" rfl).1 (Or.inr (by rfl))
  · exact (C10_mismatch_leaves_state_unchanged macSample
      { otpLength := 2, expiryMinutes := 2, minuteUnit := 60, rateLimitWindow := 600
      , maxRequests := 1, jwtSecret := "sec", jwtExpiry := 3600 }
      Faults.none_ "u1" 5 5 6
      { otps := [{ phoneNumber := "p", code := "12", expiresAt := 10, createdAt := 1
                 , used := false }], users := [] } "p" "99" rfl).2
      { phoneNumber := "p", code := "12", expiresAt := 10, createdAt := 1, used := false }
      5 5 6 "u2" (by rfl) (by decide) (by decide)

theorem map_update_id_fresh (users : List User) (uid : String) (f : User → User)
    (h : ∀ v ∈ users, v.id ≠ uid) :
    users.map (fun v => if v.id = uid then f v else v) = users := by
  induction users with
  | nil => rfl
  | cons a rest ih =>
    simp only [List.map_cons]
    rw [if_neg (h a (List.mem_cons_self _ _)),
      ih (fun v hv => h v (List.mem_cons_of_mem _ hv))]

/-- C4: under a successful verification (a fetched, matching, still-valid
challenge and no external-call failure), the user table afterwards is: when
no user row with the identity's phone number existed and the fresh id is
indeed fresh, exactly the old table plus one new row with the fresh id, the
identity as phone number and all three timestamps equal to the user-step
clock value (creation happens iff no row existed); when a row existed, the
same table where the fetched user's row — matched by id, as the store's
UPDATE is — has its lastLoginAt and updatedAt set to the clock value (its
id and created_at untouched, which the UPDATE never writes) and no row is
added — in particular the row count is unchanged, so a second row for an
existing phone number is never created, and in both cases the
lastLoginAt/updatedAt stamp is persisted through the store's update. -/
theorem C4_verify_user_upsert (mac : MacFn) (cfg : Config) (uuid : String)
    (tFetch tCheck tUser : Int) (st : AppState) (phone code : String) (otp : OTP)
    (hfetch : OTPRepo.getByPhoneNumber st.otps phone tFetch = some otp)
    (hcode : otp.code = code) (hvalid : otp.IsValid tCheck = true) :
    (UserRepo.getByPhoneNumber st.users phone = none →
      (∀ v ∈ st.users, v.id ≠ uuid) →
      (VerifyOTP mac cfg Faults.none_ uuid tFetch tCheck tUser st phone code).2.users =
        st.users ++
          [{ id := uuid, phoneNumber := phone, createdAt := tUser, updatedAt := tUser
           , lastLoginAt := some tUser }]) ∧
    (∀ u, UserRepo.getByPhoneNumber st.users phone = some u →
      (VerifyOTP mac cfg Faults.none_ uuid tFetch tCheck tUser st phone code).2.users =
        st.users.map (fun v => if v.id == u.id
          then { v with
                  phoneNumber := u.phoneNumber,
                  updatedAt := tUser,
                  lastLoginAt := some tUser }
          else v) ∧
      (VerifyOTP mac cfg Faults.none_ uuid tFetch tCheck tUser st phone code).2.users.length =
        st.users.length) := by
  have hred : VerifyOTP mac cfg Faults.none_ uuid tFetch tCheck tUser st phone code =
      VerifyOTPUserPhase mac cfg Faults.none_ uuid tUser
        { st with otps := OTPRepo.markAsUsed st.otps phone } phone := by
    simp [VerifyOTP, Faults.none_, hfetch, hcode, hvalid]
  constructor
  · intro hnone hfresh
    rw [hred]
    unfold VerifyOTPUserPhase
    simp only [show ({ st with otps := OTPRepo.markAsUsed st.otps phone } : AppState).users
        = st.users from rfl, hnone]
    simp only [Faults.none_]
    simp [UserRepo.update, UserRepo.create, NewUser, User.UpdateLastLogin,
      List.map_append]
    exact map_update_id_fresh st.users uuid _ hfresh
  · intro u hu
    rw [hred]
    unfold VerifyOTPUserPhase
    simp only [show ({ st with otps := OTPRepo.markAsUsed st.otps phone } : AppState).users
        = st.users from rfl, hu]
    simp only [Faults.none_]
    simp [UserRepo.update, User.UpdateLastLogin]

/-- Witness for C4: on an empty user table, verifying with the correct code
registers exactly one user with the fresh id and clock stamps; on a table
holding that phone number's user, verifying again only refreshes the login
stamps and adds no row. -/
theorem C4_witness :
    ((VerifyOTP macSample
        { otpLength := 2, expiryMinutes := 2, minuteUnit := 60, rateLimitWindow := 600
        , maxRequests := 1, jwtSecret := "sec", jwtExpiry := 3600 }
        Faults.none_ "id9" 5 5 6
        { otps := [{ phoneNumber := "p", code := "12", expiresAt := 10, createdAt := 1
                   , used := false }], users := [] } "p" "12").2.users =
      [{ id := "id9", phoneNumber := "p", createdAt := 6, updatedAt := 6
       , lastLoginAt := some 6 }]) ∧
    ((VerifyOTP macSample
        { otpLength := 2, expiryMinutes := 2, minuteUnit := 60, rateLimitWindow := 600
        , maxRequests := 1, jwtSecret := "sec", jwtExpiry := 3600 }
        Faults.none_ "id9" 5 5 9
        { otps := [{ phoneNumber := "p", code := "12", expiresAt := 10, createdAt := 1
                   , used := false }]
        , users := [{ id := "id7", phoneNumber := "p", createdAt := 6, updatedAt := 6
                    , lastLoginAt := some 6 }] } "p" "12").2.users =
      [{ id := "id7", phoneNumber := "p", createdAt := 6, updatedAt := 9
       , lastLoginAt := some 9 }]) := by
  constructor
  · have h := (C4_verify_user_upsert macSample
      { otpLength := 2, expiryMinutes := 2, minuteUnit := 60, rateLimitWindow := 600
      , maxRequests := 1, jwtSecret := "sec", jwtExpiry := 3600 }
      "id9" 5 5 6
      { otps := [{ phoneNumber := "p", code := "12", expiresAt := 10, createdAt := 1
                 , used := false }], users := [] } "p" "12"
      { phoneNumber := "p", code := "12", expiresAt := 10, createdAt := 1, used := false }
      (by decide) (by decide) (by decide)).1 (by decide) (by decide)
    simpa using h
  · have h := ((C4_verify_user_upsert macSample
      { otpLength := 2, expiryMinutes := 2, minuteUnit := 60, rateLimitWindow := 600
      , maxRequests := 1, jwtSecret := "sec", jwtExpiry := 3600 }
      "id9" 5 5 9
      { otps := [{ phoneNumber := "p", code := "12", expiresAt := 10, createdAt := 1
                 , used := false }]
      , users := [{ id := "id7", phoneNumber := "p", createdAt := 6, updatedAt := 6
                  , lastLoginAt := some 6 }] } "p" "12"
      { phoneNumber := "p", code := "12", expiresAt := 10, createdAt := 1, used := false }
      (by decide) (by decide) (by decide)).2
      { id := "id7", phoneNumber := "p", createdAt := 6, updatedAt := 6
      , lastLoginAt := some 6 } (by decide)).1
    simpa using h

/-- Witness for C6: a token of a non-HMAC algorithm is rejected even with a
"valid" signature, a wrong signature is rejected, and an expired token is
rejected. -/
theorem C6_witness :
    (SigAlg.RS256.isHMAC = false ∧
      ValidateToken macSample "key" 0
        { alg := .RS256, claims := { userID := "u1", phoneNumber := "p1", exp := 100 }
        , sig := macSample .RS256 "key" { userID := "u1", phoneNumber := "p1", exp := 100 } } =
        none) ∧
    ("bad" ≠ macSample .HS256 "key" { userID := "u1", phoneNumber := "p1", exp := 100 } ∧
      ValidateToken macSample "key" 0
        { alg := .HS256, claims := { userID := "u1", phoneNumber := "p1", exp := 100 }
        , sig := "bad" } = none) ∧
    ((100 : Int) ≤ 200 ∧
      ValidateToken macSample "key" 200
        { alg := .HS256, claims := { userID := "u1", phoneNumber := "p1", exp := 100 }
        , sig := macSample .HS256 "key" { userID := "u1", phoneNumber := "p1", exp := 100 } } =
        none) := by
  refine ⟨⟨by decide, ?_⟩, ⟨by decide, ?_⟩, ⟨by decide, ?_⟩⟩
  · exact (C6_validateToken_failures macSample "key" 0
      { alg := .RS256, claims := { userID := "u1", phoneNumber := "p1", exp := 100 }
      , sig := macSample .RS256 "key" { userID := "u1", phoneNumber := "p1", exp := 100 } }).1
      (by decide)
  · exact (C6_validateToken_failures macSample "key" 0
      { alg := .HS256, claims := { userID := "u1", phoneNumber := "p1", exp := 100 }
      , sig := "bad" }).2.1 (by decide)
  · exact (C6_validateToken_failures macSample "key" 200
      { alg := .HS256, claims := { userID := "u1", phoneNumber := "p1", exp := 100 }
      , sig := macSample .HS256 "key" { userID := "u1", phoneNumber := "p1", exp := 100 } }).2.2.1
      (by decide)

theorem markAsUsed_phone_all_used (store : List OTP) (phone : String) :
    ∀ o ∈ OTPRepo.markAsUsed store phone, o.phoneNumber = phone → o.used = true := by
  intro o ho hp
  unfold OTPRepo.markAsUsed at ho
  rw [List.mem_map] at ho
  obtain ⟨a, ha, rfl⟩ := ho
  by_cases hc : (a.phoneNumber == phone && !a.used) = true
  · simp [hc]
  · simp only [hc, Bool.false_eq_true, if_false] at hp ⊢
    cases hu : a.used with
    | true => rfl
    | false =>
      exact absurd (by simp [beq_iff_eq.mpr hp, hu]) hc

/-- C8: when the consume step has succeeded (a fetched, matching, valid
challenge and no fetch/consume failure) and any later step fails — the user
lookup, the user creation (reached only when no user row exists), the
last-login update, or the token mint — `VerifyOTP` returns the wrapped
internal error, and the challenge stays consumed: the resulting OTP table is
exactly the consumed table, every row of the identity in it marked used, and
no compensating rollback restores the consumed flag. -/
theorem C8_consume_not_rolled_back (mac : MacFn) (cfg : Config) (f : Faults)
    (uuid : String) (tFetch tCheck tUser : Int) (st : AppState) (phone code : String)
    (otp : OTP)
    (hff : f.fetchOTP = false) (hmu : f.markUsed = false)
    (hfetch : OTPRepo.getByPhoneNumber st.otps phone tFetch = some otp)
    (hcode : otp.code = code) (hvalid : otp.IsValid tCheck = true)
    (hfail : f.getUser = true ∨ f.updateUser = true ∨ f.mint = true ∨
      (f.createUser = true ∧ UserRepo.getByPhoneNumber st.users phone = none)) :
    (VerifyOTP mac cfg f uuid tFetch tCheck tUser st phone code).1 = .error .Internal ∧
    (VerifyOTP mac cfg f uuid tFetch tCheck tUser st phone code).2.otps =
      OTPRepo.markAsUsed st.otps phone ∧
    (∀ o ∈ (VerifyOTP mac cfg f uuid tFetch tCheck tUser st phone code).2.otps,
      o.phoneNumber = phone → o.used = true) := by
  have hred : VerifyOTP mac cfg f uuid tFetch tCheck tUser st phone code =
      if f.getUser = true then
        (.error .Internal, { st with otps := OTPRepo.markAsUsed st.otps phone })
      else VerifyOTPUserPhase mac cfg f uuid tUser
        { st with otps := OTPRepo.markAsUsed st.otps phone } phone := by
    simp [VerifyOTP, hff, hmu, hfetch, hcode, hvalid]
  have hotps : (VerifyOTP mac cfg f uuid tFetch tCheck tUser st phone code).2.otps =
      OTPRepo.markAsUsed st.otps phone := by
    rw [hred]
    by_cases hg : f.getUser = true
    · rw [if_pos hg]
    · rw [if_neg hg]
      exact userPhase_preserves_otps mac cfg f uuid tUser _ phone
  refine ⟨?_, hotps, ?_⟩
  · rw [hred]
    by_cases hg : f.getUser = true
    · rw [if_pos hg]
    · rw [if_neg hg]
      refine userPhase_fail mac cfg f uuid tUser _ phone ?_
      rcases hfail with h | h | h | ⟨h, hn⟩
      · exact absurd h hg
      · exact Or.inl h
      · exact Or.inr (Or.inl h)
      · exact Or.inr (Or.inr ⟨h, hn⟩)
  · rw [hotps]
    exact markAsUsed_phone_all_used st.otps phone

/-- Witness for C8: the user-update step is made to fail after a valid
challenge for "p" was consumed; the call reports the internal failure and
the stored challenge for "p" stays marked used. -/
theorem C8_witness :
    ((VerifyOTP macSample
        { otpLength := 2, expiryMinutes := 2, minuteUnit := 60, rateLimitWindow := 600
        , maxRequests := 1, jwtSecret := "sec", jwtExpiry := 3600 }
        { fetchOTP := false, markUsed := false, getUser := false, createUser := false
        , updateUser := true, mint := false } "id9" 5 5 6
        { otps := [{ phoneNumber := "p", code := "12", expiresAt := 10, createdAt := 1
                   , used := false }], users := [] } "p" "12").1 = .error .Internal) ∧
    ((VerifyOTP macSample
        { otpLength := 2, expiryMinutes := 2, minuteUnit := 60, rateLimitWindow := 600
        , maxRequests := 1, jwtSecret := "sec", jwtExpiry := 3600 }
        { fetchOTP := false, markUsed := false, getUser := false, createUser := false
        , updateUser := true, mint := false } "id9" 5 5 6
        { otps := [{ phoneNumber := "p", code := "12", expiresAt := 10, createdAt := 1
                   , used := false }], users := [] } "p" "12").2.otps =
      OTPRepo.markAsUsed
        [{ phoneNumber := "p", code := "12", expiresAt := 10, createdAt := 1
         , used := false }] "p") := by
  constructor
  · exact (C8_consume_not_rolled_back macSample
      { otpLength := 2, expiryMinutes := 2, minuteUnit := 60, rateLimitWindow := 600
      , maxRequests := 1, jwtSecret := "sec", jwtExpiry := 3600 }
      { fetchOTP := false, markUsed := false, getUser := false, createUser := false
      , updateUser := true, mint := false } "id9" 5 5 6
      { otps := [{ phoneNumber := "p", code := "12", expiresAt := 10, createdAt := 1
                 , used := false }], users := [] } "p" "12"
      { phoneNumber := "p", code := "12", expiresAt := 10, createdAt := 1, used := false }
      rfl rfl (by decide) (by decide) (by decide) (Or.inr (Or.inl rfl))).1
  · exact (C8_consume_not_rolled_back macSample
      { otpLength := 2, expiryMinutes := 2, minuteUnit := 60, rateLimitWindow := 600
      , maxRequests := 1, jwtSecret := "sec", jwtExpiry := 3600 }
      { fetchOTP := false, markUsed := false, getUser := false, createUser := false
      , updateUser := true, mint := false } "id9" 5 5 6
      { otps := [{ phoneNumber := "p", code := "12", expiresAt := 10, createdAt := 1
                 , used := false }], users := [] } "p" "12"
      { phoneNumber := "p", code := "12", expiresAt := 10, createdAt := 1, used := false }
      rfl rfl (by decide) (by decide) (by decide) (Or.inr (Or.inl rfl))).2.1
